import Mathlib

/-!
Verification of the blog-publishing backend (Ashutosh-WebDev/Ashu_web_blogs).

The definitions below are a shallow embedding of the Node/Express backend:
`src/backend/utils/fileUpload.js` (multer media filter),
`src/backend/models/Blog.js` (Blog schema and its wire serialization) and
`src/backend/routes/authRoutes.js` (register, login, me, and the blog CRUD
handlers).  Machine strings become `String`, buffers become `List Nat`
(bytes), the Mongo collections become explicit lists threaded through each
handler, and each Express handler becomes a function from the database state
and the request fields to a response paired with the new state.

The User model (`models/User.js`) and the auth middleware are referenced by
the routes but are not part of the source tree; where their behaviour decides
a property they are modelled from the specification and marked as such.
-/

namespace AshuBlogs

-- A byte of a Node `Buffer` is kept as a plain natural number below 256.

/-! ## Base64 encoding (`Buffer.toString('base64')` used on the read paths) -/

/-- The standard base64 alphabet, as used by `Buffer.toString('base64')`. -/
def b64Alphabet : List Char :=
  ['A','B','C','D','E','F','G','H','I','J','K','L','M',
   'N','O','P','Q','R','S','T','U','V','W','X','Y','Z',
   'a','b','c','d','e','f','g','h','i','j','k','l','m',
   'n','o','p','q','r','s','t','u','v','w','x','y','z',
   '0','1','2','3','4','5','6','7','8','9','+','/']

/-- Character for a sextet value. -/
def b64Char (n : Nat) : Char := b64Alphabet.getD n 'A'

/-- Sextet value of an alphabet character, `none` for characters outside the
alphabet (in particular for the padding character). -/
def b64Index (c : Char) : Option Nat := b64Alphabet.indexOf? c

/-- Standard base64 encoding of a byte sequence, with `=` padding. -/
def base64Encode : List Nat → List Char
  | [] => []
  | [a] => [b64Char (a / 4), b64Char (a % 4 * 16), '=', '=']
  | [a, b] => [b64Char (a / 4), b64Char (a % 4 * 16 + b / 16), b64Char (b % 16 * 4), '=']
  | a :: b :: c :: rest =>
      b64Char (a / 4) :: b64Char (a % 4 * 16 + b / 16) ::
      b64Char (b % 16 * 4 + c / 64) :: b64Char (c % 64) :: base64Encode rest

/-- Strict base64 decoding: inverse of `base64Encode`, `none` on any input
that is not a well-formed encoding. -/
def base64Decode : List Char → Option (List Nat)
  | [] => some []
  | w :: x :: y :: z :: rest =>
      match b64Index w, b64Index x with
      | some nw, some nx =>
          if y = '=' then
            if z = '=' ∧ rest = [] ∧ nx % 16 = 0 then
              some [nw * 4 + nx / 16]
            else none
          else
            match b64Index y with
            | some ny =>
                if z = '=' then
                  if rest = [] ∧ ny % 4 = 0 then
                    some [nw * 4 + nx / 16, nx % 16 * 16 + ny / 4]
                  else none
                else
                  match b64Index z with
                  | some nz =>
                      (base64Decode rest).map fun r =>
                        (nw * 4 + nx / 16) :: (nx % 16 * 16 + ny / 4) :: (ny % 4 * 64 + nz) :: r
                  | none => none
            | none => none
      | _, _ => none
  | _ => none

theorem b64Index_b64Char : ∀ n : Nat, n < 64 → b64Index (b64Char n) = some n := by
  decide

theorem b64Char_ne_pad : ∀ n : Nat, n < 64 → b64Char n ≠ '=' := by
  decide

/-- Decoding inverts encoding on every byte sequence. -/
theorem base64_roundtrip : ∀ bs : List Nat, (∀ b ∈ bs, b < 256) →
    base64Decode (base64Encode bs) = some bs
  | [], _ => rfl
  | [a], h => by
      have ha : a < 256 := h a (by simp)
      have h1 : a / 4 < 64 := by omega
      have h2 : a % 4 * 16 < 64 := by omega
      simp only [base64Encode, base64Decode, b64Index_b64Char _ h1, b64Index_b64Char _ h2]
      simp [Nat.mul_mod_left]
      omega
  | [a, b], h => by
      have ha : a < 256 := h a (by simp)
      have hb : b < 256 := h b (by simp)
      have h1 : a / 4 < 64 := by omega
      have h2 : a % 4 * 16 + b / 16 < 64 := by omega
      have h3 : b % 16 * 4 < 64 := by omega
      simp only [base64Encode, base64Decode, b64Index_b64Char _ h1, b64Index_b64Char _ h2,
        b64Index_b64Char _ h3]
      rw [if_neg (b64Char_ne_pad _ h3), if_pos trivial,
        if_pos (show True ∧ b % 16 * 4 % 4 = 0 from ⟨trivial, by omega⟩)]
      simp only [Option.some.injEq, List.cons.injEq, and_true]
      omega
  | a :: b :: c :: rest, h => by
      have ha : a < 256 := h a (by simp)
      have hb : b < 256 := h b (by simp)
      have hc : c < 256 := h c (by simp)
      have h1 : a / 4 < 64 := by omega
      have h2 : a % 4 * 16 + b / 16 < 64 := by omega
      have h3 : b % 16 * 4 + c / 64 < 64 := by omega
      have h4 : c % 64 < 64 := by omega
      have ih := base64_roundtrip rest fun x hx => h x (by simp [hx])
      simp only [base64Encode, base64Decode, b64Index_b64Char _ h1, b64Index_b64Char _ h2,
        b64Index_b64Char _ h3, b64Index_b64Char _ h4]
      rw [if_neg (b64Char_ne_pad _ h3), if_neg (b64Char_ne_pad _ h4), ih]
      simp
      omega

/-! ## String primitives

`toLowerCase()` and `trim()` are modelled by structurally recursive list
functions (Lean's own `String.toLower`/`String.trim` are extensionally the
same on the ASCII range but are not kernel-reducible). -/

/-- ASCII lowercasing of one character, as `Char.toLower` does. -/
def lowerChar (c : Char) : Char :=
  if c.toNat ≥ 65 ∧ c.toNat ≤ 90 then Char.ofNat (c.toNat + 32) else c

/-- `s.toLowerCase()`. -/
def lowerString (s : String) : String := String.mk (s.toList.map lowerChar)

/-- Strip whitespace from both ends. -/
def trimChars (cs : List Char) : List Char :=
  ((cs.dropWhile Char.isWhitespace).reverse.dropWhile Char.isWhitespace).reverse

/-- `s.trim()`. -/
def trimString (s : String) : String := String.mk (trimChars s.toList)

/-! ## Media normalizer (`src/backend/utils/fileUpload.js`) -/

/-- An uploaded multipart file as multer presents it: in-memory buffer,
declared MIME type, original client file name. -/
structure UploadedFile where
  data : List Nat
  mimetype : String
  originalname : String
deriving DecidableEq, Repr

/-- The alternatives of the regex `/jpeg|jpg|png|gif|webp/` in
`fileUpload.js`. -/
def filetypeKeywords : List (List Char) :=
  [['j','p','e','g'], ['j','p','g'], ['p','n','g'], ['g','i','f'], ['w','e','b','p']]

/-- `needle` occurs contiguously inside `hay`. -/
def listHasInfix (needle hay : List Char) : Bool :=
  (List.range (hay.length + 1)).any fun i => needle.isPrefixOf (hay.drop i)

/-- `filetypes.test(s)`: an unanchored JS regex test, true iff some
alternative occurs as a substring. -/
def regexTest (s : String) : Bool :=
  filetypeKeywords.any fun k => listHasInfix k s.toList

/-- `path.extname(name)`: the suffix from the last dot on, empty when there
is no dot or the only dot starts the name. -/
def extname (name : String) : String :=
  let cs := name.toList
  match ((List.range cs.length).filter fun i => cs.getD i ' ' == '.').getLast? with
  | some i => if i = 0 then "" else String.mk (cs.drop i)
  | none => ""

/-- The `fileFilter` of `fileUpload.js`: the regex must match the MIME type
and, independently, the lowercased filename extension. -/
def fileFilterAccept (mimetype originalname : String) : Bool :=
  regexTest mimetype && regexTest (lowerString (extname originalname))

/-- The multer `limits.fileSize` value: 5 MiB. -/
def maxFileSize : Nat := 5 * 1024 * 1024

/-- A file passes the whole multer stage iff the filter accepts it and the
buffer is within the size limit. -/
def uploadAccept (f : UploadedFile) : Bool :=
  fileFilterAccept f.mimetype f.originalname && decide (f.data.length ≤ maxFileSize)

/-- The error message produced by the multer stage for a file, `none` when
the file is accepted (filter error first, then the size limit). -/
def multerError (f : UploadedFile) : Option String :=
  if !(fileFilterAccept f.mimetype f.originalname) then
    some "Only image files are allowed (jpeg, jpg, png, gif, webp)"
  else if decide (maxFileSize < f.data.length) then
    some "File too large"
  else none

/-- `upload.single('image')` on an optional file: the error short-circuiting
the route handler, `none` when the request proceeds. -/
def uploadGate (file : Option UploadedFile) : Option String :=
  match file with
  | none => none
  | some f => multerError f

theorem uploadGate_none_iff (f : UploadedFile) :
    uploadGate (some f) = none ↔ uploadAccept f = true := by
  simp only [uploadGate, multerError, uploadAccept]
  by_cases h : fileFilterAccept f.mimetype f.originalname
  · simp only [h, Bool.not_true, Bool.false_eq_true, if_false, Bool.true_and,
      decide_eq_true_eq]
    split
    · simp
      omega
    · simp
      omega
  · simp [h, Bool.false_and]

/-! ## Data model (Mongo collections as explicit state) -/

/-- Modelled from the spec: the User record of the missing `models/User.js`
(name, unique lowercase-normalized email, and the password kept only as a
one-way hash). -/
structure User where
  id : String
  name : String
  email : String
  passwordHash : String
deriving DecidableEq, Repr

/-- The embedded image subdocument of the Blog schema
(`src/backend/models/Blog.js`): raw bytes, content type, original filename. -/
structure ImageRec where
  data : List Nat
  contentType : String
  filename : String
deriving DecidableEq, Repr

/-- A stored Blog document (`src/backend/models/Blog.js`). -/
structure Blog where
  id : String
  title : String
  googleDriveLink : String
  image : Option ImageRec
  author : String
  createdAt : Nat
deriving DecidableEq, Repr

/-- The document store: both collections, a fresh-id counter, and the clock
used for `createdAt` defaults. -/
structure DB where
  users : List User
  blogs : List Blog
  nextId : Nat
  now : Nat
deriving DecidableEq, Repr

/-- A fresh store-assigned identifier. -/
def freshId (s : DB) : String := "oid" ++ toString s.nextId

/-- The email normalization applied in the register handler:
`email.toLowerCase().trim()`. -/
def normalizeEmail (e : String) : String :=
  trimChars (e.toList.map lowerChar) |> String.mk

/-- Modelled from the spec: the slow salted one-way hash of the missing
`models/User.js` (bcrypt).  Only the property used by the routes is kept:
`comparePassword p h` succeeds exactly when `h` was produced from `p`. -/
def hashPassword (p : String) : String := "bcrypt$" ++ p

/-- Modelled from the spec: `user.comparePassword(password)` of the missing
`models/User.js` — the bcrypt comparison of a plaintext against the stored
hash. -/
def comparePassword (p : String) (h : String) : Bool := hashPassword p == h

/-- Modelled from the spec: `User.findOne({ email })` of the missing
`models/User.js`, whose schema normalizes the email; the credential store
looks accounts up by the normalized (lowercased, trimmed) email. -/
def findUserByEmail (s : DB) (e : String) : Option User :=
  s.users.find? fun u => u.email == normalizeEmail e

/-- `User.findById(id)`. -/
def findUserById (s : DB) (uid : String) : Option User :=
  s.users.find? fun u => u.id == uid

/-- The character class `[^\s@]` of the register email regex. -/
def emailCharOk (c : Char) : Bool := !c.isWhitespace && c != '@'

/-- The register handler's test of `/^[^\s@]+@[^\s@]+\.[^\s@]+$/`: a
non-empty `@`-free, space-free local part, one `@`, and a domain that splits
at some dot with non-empty sides. -/
def emailRegexAccepts (e : String) : Bool :=
  match e.toList.span fun c => c != '@' with
  | (loc, _ :: dom) =>
      !loc.isEmpty && loc.all emailCharOk && dom.all emailCharOk &&
        (dom.drop 1).dropLast.contains '.'
  | (_, []) => false

/-! ## Auth handlers (`router.post('/register')`, `router.post('/login')`,
`router.get('/me')` in `src/backend/routes/authRoutes.js`) -/

/-- The `user` object embedded in register/login success responses and
returned by `/me` after `select('-password')`. -/
structure PublicUser where
  id : String
  name : String
  email : String
deriving DecidableEq, Repr

/-- A JSON response of the two credential endpoints: HTTP status plus the
`success`, `message` and `user` fields actually sent (absent fields are
`none`). -/
structure AuthResponse where
  status : Nat
  success : Option Bool
  message : Option String
  user : Option PublicUser
deriving DecidableEq, Repr

/-- `router.post('/register')`: field presence check, email-syntax check,
password-length check, duplicate check, then creation of the user with the
trimmed name and normalized email. -/
def register (s : DB) (name email password : String) : AuthResponse × DB :=
  if name = "" ∨ email = "" ∨ password = "" then
    ({ status := 400, success := some false,
       message := some "Please provide all required fields: name, email, and password",
       user := none }, s)
  else if !emailRegexAccepts email then
    ({ status := 400, success := some false,
       message := some "Please provide a valid email address", user := none }, s)
  else if password.length < 6 then
    ({ status := 400, success := some false,
       message := some "Password must be at least 6 characters long", user := none }, s)
  else
    match findUserByEmail s email with
    | some _ =>
        ({ status := 400, success := some false,
           message := some "Email already registered. Please use a different email or login.",
           user := none }, s)
    | none =>
        let u : User :=
          { id := freshId s, name := trimString name, email := normalizeEmail email,
            passwordHash := hashPassword password }
        ({ status := 201, success := some true, message := none,
           user := some { id := u.id, name := u.name, email := u.email } },
         { s with users := s.users ++ [u], nextId := s.nextId + 1 })

/-- `router.post('/login')`: presence check, lookup through the credential
store, bcrypt comparison, uniform `Invalid credentials` failure. -/
def login (s : DB) (email password : String) : AuthResponse × DB :=
  if email = "" ∨ password = "" then
    ({ status := 400, success := none,
       message := some "Please provide email and password", user := none }, s)
  else
    match findUserByEmail s email with
    | none =>
        ({ status := 401, success := none,
           message := some "Invalid credentials", user := none }, s)
    | some u =>
        if !comparePassword password u.passwordHash then
          ({ status := 401, success := none,
             message := some "Invalid credentials", user := none }, s)
        else
          ({ status := 200, success := some true, message := none,
             user := some { id := u.id, name := u.name, email := u.email } }, s)

/-- `router.get('/me')`: the authenticated user's record with the password
projected away (`select('-password')`). -/
def me (s : DB) (uid : String) : Option PublicUser :=
  (findUserById s uid).map fun u => { id := u.id, name := u.name, email := u.email }

/-- Rewrite every stored password hash (used to state that read paths do not
depend on the hashes). -/
def mapHashes (g : User → String) (s : DB) : DB :=
  { s with users := s.users.map fun u => { u with passwordHash := g u } }

/-! ## Blog wire form (lean() + populate + base64 mapping on the read paths) -/

/-- The image object as sent on the wire: base64 text instead of raw bytes,
`contentType` and `filename` carried over. -/
structure WireImage where
  data : List Char
  contentType : String
  filename : String
deriving DecidableEq, Repr

/-- `populate('author', 'name')`: the author reference resolved to a record
holding just the name. -/
structure WireAuthor where
  name : String
deriving DecidableEq, Repr

/-- A blog as returned by the public read paths. -/
structure WireBlog where
  id : String
  title : String
  googleDriveLink : String
  image : Option WireImage
  author : Option WireAuthor
  createdAt : Nat
deriving DecidableEq, Repr

/-- The base64 re-encoding of a stored image for the response
(`blog.image.data.toString('base64')`). -/
def imageToWire (im : ImageRec) : WireImage :=
  { data := base64Encode im.data, contentType := im.contentType,
    filename := im.filename }

/-- One blog prepared for a read response: author populated with its name,
image bytes re-encoded to base64, everything else carried over. -/
def blogToWire (s : DB) (b : Blog) : WireBlog :=
  { id := b.id, title := b.title, googleDriveLink := b.googleDriveLink,
    image := b.image.map imageToWire,
    author := (findUserById s b.author).map fun u => { name := u.name },
    createdAt := b.createdAt }

/-- `Blog.findById` / the `_id` filter of the blog routes. -/
def findBlog (s : DB) (id : String) : Option Blog :=
  s.blogs.find? fun b => b.id == id

/-! ## Blog routes (`src/backend/routes/authRoutes.js`, blogs module) -/

/-- The `sort({ createdAt: -1 })` order: newest first. -/
def blogNewerFirst (a b : Blog) : Prop := b.createdAt ≤ a.createdAt

instance : DecidableRel blogNewerFirst := fun _ _ => Nat.decLe _ _

/-- `router.get('/')`: the whole collection, newest first, author populated,
images re-encoded to base64; the state is returned untouched. -/
def getAllBlogs (s : DB) : List WireBlog × DB :=
  ((s.blogs.insertionSort blogNewerFirst).map (blogToWire s), s)

/-- The response of `router.get('/:id')`: status plus the `success`,
`message`, `error` and `data` fields actually sent. -/
structure GetResponse where
  status : Nat
  success : Option Bool
  message : Option String
  error : Option String
  data : Option WireBlog
deriving DecidableEq, Repr

/-- A hexadecimal digit. -/
def isHexChar (c : Char) : Bool :=
  c.isDigit || (decide ('a' ≤ c) && decide (c ≤ 'f')) ||
    (decide ('A' ≤ c) && decide (c ≤ 'F'))

/-- `mongoose.Types.ObjectId.isValid`: a 24-character hex string, or any
12-character string (12 raw bytes). -/
def isValidObjectId (id : String) : Bool :=
  let cs := id.toList
  (cs.length == 24 && cs.all isHexChar) || cs.length == 12

/-- `router.get('/:id')`: malformed ids fail fast with 400 and the
`INVALID_ID_FORMAT` kind, missing blogs give 404 with `BLOG_NOT_FOUND`,
otherwise the populated, base64-encoded blog is returned; reads never change
the state. -/
def getBlogById (s : DB) (id : String) : GetResponse × DB :=
  if !isValidObjectId id then
    ({ status := 400, success := some false,
       message := some "Invalid blog ID format",
       error := some "INVALID_ID_FORMAT", data := none }, s)
  else
    match findBlog s id with
    | none =>
        ({ status := 404, success := some false,
           message := some "Blog not found",
           error := some "BLOG_NOT_FOUND", data := none }, s)
    | some b =>
        ({ status := 200, success := some true, message := none,
           error := none, data := some (blogToWire s b) }, s)

/-- The response of the mutating blog routes. -/
structure BlogMutResponse where
  status : Nat
  message : Option String
  blog : Option Blog
deriving DecidableEq, Repr

/-- `blog.title = title || blog.title` followed by the schema's trim setter:
an absent or empty patch value keeps the old one, a non-empty value is
stored trimmed. -/
def patchStr (old : String) (v? : Option String) : String :=
  match v? with
  | none => old
  | some v => if v = "" then old else trimString v

/-- `router.post('/')`: multer gate, then schema validation (title required
with minlength 3 after trim, link required), then insertion of the new blog
owned by the authenticated user. -/
def postBlog (s : DB) (uid : String) (title googleDriveLink : Option String)
    (file : Option UploadedFile) : BlogMutResponse × DB :=
  match uploadGate file with
  | some msg => ({ status := 500, message := some msg, blog := none }, s)
  | none =>
      let t := trimString (title.getD "")
      let l := trimString (googleDriveLink.getD "")
      if t.length < 3 ∨ l = "" then
        ({ status := 400, message := some "Error creating blog", blog := none }, s)
      else
        let b : Blog :=
          { id := freshId s, title := t, googleDriveLink := l,
            image := file.map fun f =>
              { data := f.data, contentType := f.mimetype, filename := f.originalname },
            author := uid, createdAt := s.now }
        ({ status := 201, message := none, blog := some b },
         { s with blogs := s.blogs ++ [b], nextId := s.nextId + 1 })

/-- `blog.save()` after mutating a loaded document: the stored blog with
this id is replaced in the collection. -/
def saveBlog (s : DB) (b2 : Blog) (id : String) : DB :=
  { s with blogs := s.blogs.map fun x => if x.id == id then b2 else x }

/-- `router.put('/:id')`: multer gate, lookup, ownership check, falsy-keeps-
old patch of title and link, image replaced only when a new file was
uploaded, then validation and save. -/
def putBlog (s : DB) (uid id : String) (title googleDriveLink : Option String)
    (file : Option UploadedFile) : BlogMutResponse × DB :=
  match uploadGate file with
  | some msg => ({ status := 500, message := some msg, blog := none }, s)
  | none =>
      match findBlog s id with
      | none => ({ status := 404, message := some "Blog not found", blog := none }, s)
      | some b =>
          if b.author ≠ uid then
            ({ status := 401, message := some "Not authorized", blog := none }, s)
          else
            let t := patchStr b.title title
            let l := patchStr b.googleDriveLink googleDriveLink
            let im : Option ImageRec :=
              match file with
              | some f => some { data := f.data, contentType := f.mimetype,
                                 filename := f.originalname }
              | none => b.image
            if t.length < 3 ∨ l = "" then
              ({ status := 400, message := some "Error updating blog", blog := none }, s)
            else
              let b2 : Blog := { b with title := t, googleDriveLink := l, image := im }
              ({ status := 200, message := none, blog := some b2 }, saveBlog s b2 id)

/-- `router.delete('/:id')`: lookup, ownership check, `deleteOne` on the id. -/
def deleteBlog (s : DB) (uid id : String) : BlogMutResponse × DB :=
  match findBlog s id with
  | none => ({ status := 404, message := some "Blog not found", blog := none }, s)
  | some b =>
      if b.author ≠ uid then
        ({ status := 401, message := some "Not authorized", blog := none }, s)
      else
        ({ status := 200, message := some "Blog removed successfully", blog := none },
         { s with blogs := s.blogs.filter fun x => !(x.id == id) })

/-! ## Sample state used by the concrete witnesses -/

/-- The empty store. -/
def emptyDB : DB := { users := [], blogs := [], nextId := 0, now := 0 }

/-- A registered sample user. -/
def sampleUser : User :=
  { id := "oid0", name := "Alice", email := "alice@example.com",
    passwordHash := hashPassword "secret1" }

/-- A stored sample image. -/
def sampleImage : ImageRec :=
  { data := [137, 80, 78, 71], contentType := "image/png", filename := "cover.png" }

/-- A stored sample blog owned by `sampleUser`. -/
def sampleBlog : Blog :=
  { id := "b1", title := "Hi There",
    googleDriveLink := "https://docs.google.com/document/d/abc123/edit",
    image := some sampleImage, author := "oid0", createdAt := 3 }

/-- A one-user, one-blog store. -/
def sampleDB : DB := { users := [sampleUser], blogs := [sampleBlog], nextId := 7, now := 9 }

/-- A well-formed upload. -/
def samplePngUpload : UploadedFile :=
  { data := [1, 2, 3], mimetype := "image/png", originalname := "photo.png" }

/-! ## Helper lemmas -/

theorem emailCharOk_false_of_ws {c : Char} (h : c.isWhitespace = true) :
    emailCharOk c = false := by
  simp [emailCharOk, h]

/-- Any whitespace anywhere in the candidate email makes the register regex
reject it. -/
theorem emailRegex_rejects_ws (e : String)
    (h : e.toList.any (fun c => c.isWhitespace) = true) :
    emailRegexAccepts e = false := by
  rw [Bool.eq_false_iff]
  intro htrue
  unfold emailRegexAccepts at htrue
  rw [List.span_eq_take_drop] at htrue
  rcases hd : e.toList.dropWhile (fun c => c != '@') with _ | ⟨r, dom⟩ <;> rw [hd] at htrue
  · simp at htrue
  · simp only [Bool.and_eq_true] at htrue
    obtain ⟨⟨⟨hne, hlocall⟩, hdomall⟩, hdot⟩ := htrue
    have hr : (r != '@') = false := by
      have hh := List.head?_dropWhile_not (fun c => c != '@') e.toList
      rw [hd] at hh
      exact hh
    have hr2 : r = '@' := by simpa using hr
    rcases List.any_eq_true.mp h with ⟨c, hc, hws⟩
    have hc2 : c ∈ e.toList.takeWhile (fun c => c != '@') ∨
        c ∈ e.toList.dropWhile (fun c => c != '@') := by
      rw [← List.takeWhile_append_dropWhile (fun c => c != '@') e.toList] at hc
      exact List.mem_append.mp hc
    rcases hc2 with hcl | hcr
    · have h2 := List.all_eq_true.mp hlocall c hcl
      rw [emailCharOk_false_of_ws hws] at h2
      exact Bool.false_ne_true h2
    · rw [hd] at hcr
      rcases List.mem_cons.mp hcr with rfl | hcd
      · rw [hr2] at hws
        exact absurd hws (by decide)
      · have h2 := List.all_eq_true.mp hdomall c hcd
        rw [emailCharOk_false_of_ws hws] at h2
        exact Bool.false_ne_true h2

theorem findUserById_mapHashes (g : User → String) (s : DB) (uid : String) :
    findUserById (mapHashes g s) uid =
      (findUserById s uid).map fun u => { u with passwordHash := g u } := by
  unfold findUserById mapHashes
  rw [List.find?_map]
  rfl

theorem findUserByEmail_mapHashes (g : User → String) (s : DB) (e : String) :
    findUserByEmail (mapHashes g s) e =
      (findUserByEmail s e).map fun u => { u with passwordHash := g u } := by
  unfold findUserByEmail mapHashes
  rw [List.find?_map]
  rfl

/-- Replacing the found element in place: `find?` then returns the
replacement. -/
theorem find?_replace {α} (p : α → Bool) (c : α) (hc : p c = true) :
    ∀ (l : List α) (b : α), l.find? p = some b →
      (l.map fun x => if p x then c else x).find? p = some c := by
  intro l
  induction l with
  | nil => intro b hb; simp at hb
  | cons a as ih =>
      intro b hb
      by_cases hpa : p a = true
      · simp only [List.map_cons, if_pos hpa]
        exact List.find?_cons_of_pos _ hc
      · rw [List.find?_cons_of_neg _ hpa] at hb
        simp only [List.map_cons, if_neg hpa]
        rw [List.find?_cons_of_neg _ hpa]
        exact ih b hb

/-- Saving a blog whose id matches the looked-up id makes the lookup return
exactly the saved blog. -/
theorem findBlog_saveBlog (s : DB) (id : String) (b b2 : Blog)
    (hb : findBlog s id = some b) (hid2 : (b2.id == id) = true) :
    findBlog (saveBlog s b2 id) id = some b2 := by
  have hb3 : s.blogs.find? (fun x => x.id == id) = some b := hb
  exact find?_replace _ b2 hid2 s.blogs b hb3

/-! ## Claim theorems -/

/-- Claim C5: the login failure response for a non-existent email and the
failure response for an existing email with a non-matching password are one
and the same JSON response (status 401, body `{ message: 'Invalid
credentials' }`, no success flag, no user), so no response distinguishes the
two cases. -/
theorem login_uniform_failure (s : DB) (e1 p1 e2 p2 : String) (u : User)
    (he1 : e1 ≠ "") (hp1 : p1 ≠ "") (he2 : e2 ≠ "") (hp2 : p2 ≠ "")
    (habs : findUserByEmail s e1 = none)
    (hex : findUserByEmail s e2 = some u)
    (hwrong : comparePassword p2 u.passwordHash = false) :
    login s e1 p1 = login s e2 p2 ∧
    (login s e1 p1).1 =
      { status := 401, success := none,
        message := some "Invalid credentials", user := none } := by
  unfold login
  rw [if_neg (by simp [he1, hp1]), if_neg (by simp [he2, hp2]), habs, hex]
  simp [hwrong]

/-- Witness for C5 at a concrete store: the unknown-email failure and the
wrong-password failure coincide. -/
theorem login_uniform_failure_witness :
    login sampleDB "ghost@example.com" "secret1" =
      login sampleDB "alice@example.com" "wrongpw" ∧
    (login sampleDB "ghost@example.com" "secret1").1 =
      { status := 401, success := none,
        message := some "Invalid credentials", user := none } :=
  login_uniform_failure sampleDB "ghost@example.com" "secret1"
    "alice@example.com" "wrongpw" sampleUser
    (by decide) (by decide) (by decide) (by decide) (by decide) (by decide) (by decide)

/-- Claim C7: login succeeds exactly when the password matches the hash the
credential store keeps for the normalized email, and any case/whitespace
variant of the email produces the very same login outcome (the store lookup
is by normalized email — modelled from the spec, `models/User.js` being
outside the source tree). -/
theorem login_by_normalized_email (s : DB) (e p : String)
    (he : e ≠ "") (hp : p ≠ "") :
    ((login s e p).1.status = 200 ↔
      ∃ u, findUserByEmail s e = some u ∧ u.passwordHash = hashPassword p) ∧
    ∀ e2, normalizeEmail e2 = normalizeEmail e → e2 ≠ "" →
      login s e2 p = login s e p := by
  constructor
  · unfold login
    rw [if_neg (by simp [he, hp])]
    cases hfind : findUserByEmail s e with
    | none => simp
    | some u =>
        by_cases hcp : comparePassword p u.passwordHash = true
        · have heq : hashPassword p = u.passwordHash := by
            unfold comparePassword at hcp
            exact eq_of_beq hcp
          simp [hcp]
          exact heq.symm
        · have hcpb : comparePassword p u.passwordHash = false :=
            Bool.not_eq_true _ |>.mp hcp
          have hne2 : u.passwordHash ≠ hashPassword p := by
            intro hh
            rw [hh] at hcpb
            simp [comparePassword] at hcpb
          simp [hcpb, hne2]
  · intro e2 hnorm he2
    unfold login findUserByEmail
    rw [hnorm, if_neg (by simp [he2, hp]), if_neg (by simp [he, hp])]

/-- Witness for C7: the user registered as `alice@example.com` logs in with
a mixed-case padded variant of the email and the correct password. -/
theorem login_by_normalized_email_witness :
    (login sampleDB "Alice@Example.com" "secret1").1.status = 200 ∧
    login sampleDB " ALICE@EXAMPLE.COM " "secret1" =
      login sampleDB "Alice@Example.com" "secret1" :=
  ⟨(login_by_normalized_email sampleDB "Alice@Example.com" "secret1" (by decide)
      (by decide)).1.mpr ⟨sampleUser, by decide, by decide⟩,
   (login_by_normalized_email sampleDB "Alice@Example.com" "secret1" (by decide)
      (by decide)).2 " ALICE@EXAMPLE.COM " (by decide) (by decide)⟩

/-- Any successful login found some user and returned exactly the
status-200 response holding that user's public fields. -/
theorem login_success_shape (s : DB) (e p : String)
    (h : (login s e p).1.status = 200) :
    ∃ u, findUserByEmail s e = some u ∧
      login s e p = ({ status := 200, success := some true, message := none,
                       user := some { id := u.id, name := u.name, email := u.email } },
                     s) := by
  unfold login at h ⊢
  by_cases hmiss : e = "" ∨ p = ""
  · rw [if_pos hmiss] at h
    simp at h
  · rw [if_neg hmiss] at h ⊢
    cases hfind : findUserByEmail s e with
    | none =>
        rw [hfind] at h
        simp at h
    | some u =>
        rw [hfind] at h
        by_cases hcp : comparePassword p u.passwordHash = true
        · exact ⟨u, rfl, by simp [hcp]⟩
        · have hcpb : comparePassword p u.passwordHash = false :=
            Bool.not_eq_true _ |>.mp hcp
          simp [hcpb] at h

/-- Claim C9: no read path exposes the password hash.  `/me` is unchanged
under any rewriting of the stored hashes; the register response is likewise
unchanged; and whenever login succeeds both before and after a hash
rewriting, the success responses coincide — every such body carries only the
user's id, name and email. -/
theorem no_hash_exposure (s : DB) (g : User → String) (uid n e p e2 p2 p3 : String)
    (h1 : (login s e2 p2).1.status = 200)
    (h2 : (login (mapHashes g s) e2 p3).1.status = 200) :
    me (mapHashes g s) uid = me s uid ∧
    (register (mapHashes g s) n e p).1 = (register s n e p).1 ∧
    (login (mapHashes g s) e2 p3).1 = (login s e2 p2).1 := by
  refine ⟨?_, ?_, ?_⟩
  · unfold me
    rw [findUserById_mapHashes]
    cases findUserById s uid <;> rfl
  · unfold register
    by_cases hmiss : n = "" ∨ e = "" ∨ p = ""
    · rw [if_pos hmiss, if_pos hmiss]
    · rw [if_neg hmiss, if_neg hmiss]
      by_cases hre : emailRegexAccepts e = true
      · have hneg : ¬((!emailRegexAccepts e) = true) := by simp [hre]
        rw [if_neg hneg, if_neg hneg]
        by_cases hlen : p.length < 6
        · rw [if_pos hlen, if_pos hlen]
        · rw [if_neg hlen, if_neg hlen, findUserByEmail_mapHashes]
          cases findUserByEmail s e <;> simp [mapHashes, freshId]
      · have hf : emailRegexAccepts e = false := Bool.not_eq_true _ |>.mp hre
        have hpos : (!emailRegexAccepts e) = true := by simp [hf]
        rw [if_pos hpos, if_pos hpos]
  · obtain ⟨u, hu, hlogin⟩ := login_success_shape s e2 p2 h1
    obtain ⟨u2, hu2, hlogin2⟩ := login_success_shape (mapHashes g s) e2 p3 h2
    rw [findUserByEmail_mapHashes, hu] at hu2
    simp only [Option.map_some'] at hu2
    injection hu2 with hh
    subst hh
    rw [hlogin, hlogin2]

/-- Witness for C9 at a concrete store and hash rewriting. -/
theorem no_hash_exposure_witness :
    me (mapHashes (fun _ => hashPassword "secret2") sampleDB) "oid0" =
      me sampleDB "oid0" ∧
    (register (mapHashes (fun _ => hashPassword "secret2") sampleDB)
        "Bob" "bob@example.com" "secret9").1 =
      (register sampleDB "Bob" "bob@example.com" "secret9").1 ∧
    (login (mapHashes (fun _ => hashPassword "secret2") sampleDB)
        "alice@example.com" "secret2").1 =
      (login sampleDB "alice@example.com" "secret1").1 :=
  no_hash_exposure sampleDB (fun _ => hashPassword "secret2") "oid0" "Bob"
    "bob@example.com" "secret9" "alice@example.com" "secret1" "secret2"
    (by decide) (by decide)

/-- Claim C6: for any payload accepted by the media normalizer, the wire
representation produced on read decodes byte-for-byte to the stored payload,
and its `contentType` and `filename` equal the stored ones unchanged. -/
theorem image_wire_roundtrip (f : UploadedFile)
    (_hacc : uploadAccept f = true) (hbytes : ∀ b ∈ f.data, b < 256) :
    base64Decode (imageToWire { data := f.data, contentType := f.mimetype,
                                filename := f.originalname }).data = some f.data ∧
    (imageToWire { data := f.data, contentType := f.mimetype,
                   filename := f.originalname }).contentType = f.mimetype ∧
    (imageToWire { data := f.data, contentType := f.mimetype,
                   filename := f.originalname }).filename = f.originalname :=
  ⟨base64_roundtrip f.data hbytes, rfl, rfl⟩

/-- Witness for C6 on a concrete accepted upload. -/
theorem image_wire_roundtrip_witness :
    base64Decode (imageToWire { data := samplePngUpload.data,
                                contentType := samplePngUpload.mimetype,
                                filename := samplePngUpload.originalname }).data =
      some samplePngUpload.data :=
  (image_wire_roundtrip samplePngUpload (by decide) (by decide)).1

instance : IsTotal Blog blogNewerFirst :=
  ⟨fun a b => Nat.le_total b.createdAt a.createdAt⟩

instance : IsTrans Blog blogNewerFirst :=
  ⟨fun _ _ _ h1 h2 => Nat.le_trans h2 h1⟩

/-- Claim C8: the public listing never mutates the state, returns exactly
the whole Blog collection (as populated, base64-encoded wire blogs), and is
ordered newest-first by creation time. -/
theorem getAll_list_spec (s : DB) :
    (getAllBlogs s).2 = s ∧
    ((getAllBlogs s).1).Perm (s.blogs.map (blogToWire s)) ∧
    List.Sorted (fun a b : WireBlog => b.createdAt ≤ a.createdAt)
      (getAllBlogs s).1 :=
  ⟨rfl,
   (List.perm_insertionSort blogNewerFirst s.blogs).map (blogToWire s),
   List.Pairwise.map (blogToWire s) (fun _ _ h => h)
     (List.sorted_insertionSort blogNewerFirst s.blogs)⟩

/-- Claim C3: a malformed id fails `GET /api/blogs/:id` with the 400
`INVALID_ID_FORMAT` response, a well-formed but absent id fails with the 404
`BLOG_NOT_FOUND` response, neither read changes the state, and the two
failures differ in status (and error kind), so clients can tell them
apart. -/
theorem getById_error_kinds (s : DB) (id1 id2 : String)
    (h1 : isValidObjectId id1 = false)
    (h2 : isValidObjectId id2 = true) (h3 : findBlog s id2 = none) :
    getBlogById s id1 =
      ({ status := 400, success := some false,
         message := some "Invalid blog ID format",
         error := some "INVALID_ID_FORMAT", data := none }, s) ∧
    getBlogById s id2 =
      ({ status := 404, success := some false,
         message := some "Blog not found",
         error := some "BLOG_NOT_FOUND", data := none }, s) ∧
    (getBlogById s id1).1.status ≠ (getBlogById s id2).1.status ∧
    (getBlogById s id1).1.error ≠ (getBlogById s id2).1.error := by
  have e1 : getBlogById s id1 =
      ({ status := 400, success := some false,
         message := some "Invalid blog ID format",
         error := some "INVALID_ID_FORMAT", data := none }, s) := by
    unfold getBlogById
    rw [if_pos (by simp [h1])]
  have e2 : getBlogById s id2 =
      ({ status := 404, success := some false,
         message := some "Blog not found",
         error := some "BLOG_NOT_FOUND", data := none }, s) := by
    unfold getBlogById
    rw [if_neg (by simp [h2]), h3]
  refine ⟨e1, e2, ?_, ?_⟩
  · rw [e1, e2]
    simp
  · rw [e1, e2]
    simp

/-- Witness for C3: the spec's scenario ids against the sample store. -/
theorem getById_error_kinds_witness :
    (getBlogById sampleDB "not-a-valid-id").1.status = 400 ∧
    (getBlogById sampleDB "aaaaaaaaaaaaaaaaaaaaaaaa").1.status = 404 := by
  have h := getById_error_kinds sampleDB "not-a-valid-id"
    "aaaaaaaaaaaaaaaaaaaaaaaa" (by decide) (by decide) (by decide)
  exact ⟨by rw [h.1], by rw [h.2.1]⟩

/-- Claim C1: a PUT or DELETE on an existing blog authenticated as a
non-author fails with the 401 `Not authorized` response and leaves the whole
store — in particular the blog's title, googleDriveLink, image and author —
unchanged. -/
theorem put_delete_not_owner (s : DB) (uidB id : String) (b : Blog)
    (t l : Option String) (file : Option UploadedFile)
    (hb : findBlog s id = some b) (hne : b.author ≠ uidB)
    (hgate : uploadGate file = none) :
    putBlog s uidB id t l file =
      ({ status := 401, message := some "Not authorized", blog := none }, s) ∧
    deleteBlog s uidB id =
      ({ status := 401, message := some "Not authorized", blog := none }, s) := by
  constructor
  · unfold putBlog
    rw [hgate, hb]
    simp [hne]
  · unfold deleteBlog
    rw [hb]
    simp [hne]

/-- Witness for C1: a different authenticated user fails to update or delete
the sample blog, and the store is untouched. -/
theorem put_delete_not_owner_witness :
    putBlog sampleDB "oid9" "b1" (some "New Title") none none =
      ({ status := 401, message := some "Not authorized", blog := none }, sampleDB) ∧
    deleteBlog sampleDB "oid9" "b1" =
      ({ status := 401, message := some "Not authorized", blog := none }, sampleDB) :=
  put_delete_not_owner sampleDB "oid9" "b1" sampleBlog (some "New Title") none none
    (by decide) (by decide) (by decide)

/-- Claim C4 (counterexample): registering `alice@example.com` and then
registering the whitespace variant ` alice@example.com` does not produce the
duplicate-email error — the variant is rejected earlier by the email-syntax
validation, so the claim's `fails with a DuplicateEmailError` is false for
whitespace variants (no new User is created either way). -/
theorem register_whitespace_variant_cex :
    ((register (register emptyDB "Alice" "alice@example.com" "secret1").2
        "Alice" " alice@example.com" "secret1").1.message =
      some "Please provide a valid email address") ∧
    normalizeEmail " alice@example.com" = normalizeEmail "alice@example.com" ∧
    (register (register emptyDB "Alice" "alice@example.com" "secret1").2
        "Alice" " alice@example.com" "secret1").1.message ≠
      some "Email already registered. Please use a different email or login." ∧
    (register (register emptyDB "Alice" "alice@example.com" "secret1").2
        "Alice" " alice@example.com" "secret1").2 =
      (register emptyDB "Alice" "alice@example.com" "secret1").2 := by
  decide

/-- Claim C4 (amended): when a user with the same normalized email already
exists, a second register with a case variant fails with the 400
duplicate-email response and creates no User; a whitespace-padded variant is
instead rejected by the email-syntax validation (400, `Please provide a
valid email address`) before any uniqueness check, and also creates no
User. -/
theorem register_duplicate_normalized (s : DB) (n2 e2 p2 : String) (u : User)
    (hu : findUserByEmail s e2 = some u)
    (hn : n2 ≠ "") (he0 : e2 ≠ "") (hp0 : p2 ≠ "")
    (he : emailRegexAccepts e2 = true) (hp : ¬p2.length < 6) :
    register s n2 e2 p2 =
      ({ status := 400, success := some false,
         message := some "Email already registered. Please use a different email or login.",
         user := none }, s) ∧
    ∀ n3 e3 p3, n3 ≠ "" → e3 ≠ "" → p3 ≠ "" →
      e3.toList.any (fun c => c.isWhitespace) = true →
      register s n3 e3 p3 =
        ({ status := 400, success := some false,
           message := some "Please provide a valid email address",
           user := none }, s) := by
  constructor
  · unfold register
    rw [if_neg (by simp [hn, he0, hp0]), if_neg (by simp [he]), if_neg hp, hu]
  · intro n3 e3 p3 hn3 he3 hp3 hws
    unfold register
    rw [if_neg (by simp [hn3, he3, hp3]),
      if_pos (by simp [emailRegex_rejects_ws e3 hws])]

/-- Witness for the amended C4: a case variant of the registered sample
email is refused as a duplicate and the store is unchanged. -/
theorem register_duplicate_normalized_witness :
    register sampleDB "Eve" "ALICE@Example.com" "hunter22" =
      ({ status := 400, success := some false,
         message := some "Email already registered. Please use a different email or login.",
         user := none }, sampleDB) ∧
    register sampleDB "Eve" " alice@example.com" "hunter22" =
      ({ status := 400, success := some false,
         message := some "Please provide a valid email address",
         user := none }, sampleDB) := by
  have h := register_duplicate_normalized sampleDB "Eve" "ALICE@Example.com"
    "hunter22" sampleUser (by decide) (by decide) (by decide) (by decide)
    (by decide) (by decide)
  exact ⟨h.1, h.2 "Eve" " alice@example.com" "hunter22" (by decide) (by decide)
    (by decide) (by decide)⟩

/-- The media-acceptance condition in the claim's words: the MIME type is
one of the four image types, the lowercased extension is independently one
of the matching extensions, and the size is at most 5 MiB. -/
def specMediaAccept (f : UploadedFile) : Bool :=
  ["image/jpeg", "image/png", "image/gif", "image/webp"].contains f.mimetype &&
  [".jpeg", ".jpg", ".png", ".gif", ".webp"].contains
    (lowerString (extname f.originalname)) &&
  decide (f.data.length ≤ maxFileSize)

/-- Claim C2 (counterexample): the filter is an unanchored substring test,
not set membership — MIME `image/png` with filename `a.xpng` is accepted by
the code and the POST creates a Blog, although `.xpng` is not one of the
allowed extensions, refuting the claimed `if and only if`. -/
theorem media_filter_substring_cex :
    uploadAccept
      { data := [0], mimetype := "image/png", originalname := "a.xpng" } = true ∧
    specMediaAccept
      { data := [0], mimetype := "image/png", originalname := "a.xpng" } = false ∧
    (postBlog sampleDB "oid0" (some "Hi There") (some "link")
        (some { data := [0], mimetype := "image/png",
                originalname := "a.xpng" })).1.status = 201 := by
  decide

/-- Claim C2 (amended): an upload is accepted iff some regex keyword occurs
as a substring of the MIME string, some keyword occurs as a substring of the
lowercased extension, and the size is at most 5 MiB; the POST succeeds
exactly on acceptance; any rejection short-circuits the POST with the
unsupported-media failure leaving the store unchanged; and a file with MIME
`image/jpeg` but a `.txt` extension is rejected. -/
theorem media_acceptance_characterization (s : DB) (uid t l : String)
    (f : UploadedFile)
    (ht : 3 ≤ (trimString t).length) (hl : trimString l ≠ "") :
    (uploadAccept f = true ↔
      ((∃ k ∈ filetypeKeywords, listHasInfix k f.mimetype.toList = true) ∧
       (∃ k ∈ filetypeKeywords,
          listHasInfix k (lowerString (extname f.originalname)).toList = true) ∧
       f.data.length ≤ maxFileSize)) ∧
    ((postBlog s uid (some t) (some l) (some f)).1.status = 201 ↔
      uploadAccept f = true) ∧
    (uploadAccept f = false →
      (postBlog s uid (some t) (some l) (some f)).2 = s ∧
      (postBlog s uid (some t) (some l) (some f)).1.status = 500) ∧
    uploadAccept { data := f.data, mimetype := "image/jpeg",
                   originalname := "file.txt" } = false := by
  have hlt : ¬(trimString t).length < 3 := by omega
  refine ⟨?_, ?_, ?_, ?_⟩
  · simp [uploadAccept, fileFilterAccept, regexTest, List.any_eq_true, and_assoc]
  · cases hg : uploadGate (some f) with
    | none =>
        have hacc := (uploadGate_none_iff f).mp hg
        unfold postBlog
        rw [hg]
        simp [Option.getD, hlt, hl, hacc]
    | some msg =>
        have hacc : uploadAccept f = false := by
          cases h2 : uploadAccept f
          · rfl
          · exact absurd ((uploadGate_none_iff f).mpr h2) (by simp [hg])
        unfold postBlog
        rw [hg]
        simp [hacc]
  · intro haccf
    cases hg : uploadGate (some f) with
    | none =>
        have hacc := (uploadGate_none_iff f).mp hg
        rw [haccf] at hacc
        exact absurd hacc (by simp)
    | some msg =>
        unfold postBlog
        rw [hg]
        simp
  · unfold uploadAccept
    have hff : fileFilterAccept "image/jpeg" "file.txt" = false := by decide
    simp [hff]

/-- Witness for the amended C2: a well-formed png upload makes the POST
succeed with 201. -/
theorem media_acceptance_characterization_witness :
    (postBlog sampleDB "oid0" (some "Hi There")
        (some "https://docs.google.com/document/d/abc123/edit")
        (some samplePngUpload)).1.status = 201 :=
  (media_acceptance_characterization sampleDB "oid0" "Hi There"
      "https://docs.google.com/document/d/abc123/edit" samplePngUpload
      (by decide) (by decide)).2.1.mpr (by decide)

/-- Claim C10: on an authorized update of an existing (valid) blog, an
absent or empty title/googleDriveLink patch leaves the stored value
unchanged; with no uploaded file the stored image is preserved exactly; and
after any update the blog still exists with its image either the old one or
the accepted upload — the interface never removes an image. -/
theorem put_frame (s : DB) (uid id : String) (b : Blog) (t l : Option String)
    (file : Option UploadedFile)
    (hb : findBlog s id = some b) (hown : b.author = uid)
    (hgate : uploadGate file = none) :
    ((t = none ∨ t = some "") →
      (findBlog (putBlog s uid id t l file).2 id).map Blog.title = some b.title) ∧
    ((l = none ∨ l = some "") →
      (findBlog (putBlog s uid id t l file).2 id).map Blog.googleDriveLink =
        some b.googleDriveLink) ∧
    (file = none →
      (findBlog (putBlog s uid id t l file).2 id).map Blog.image = some b.image) ∧
    (∀ im, b.image = some im →
      ∃ b2, findBlog (putBlog s uid id t l file).2 id = some b2 ∧
        (b2.image = b.image ∨ ∃ f, file = some f ∧
          b2.image = some { data := f.data, contentType := f.mimetype,
                            filename := f.originalname })) := by
  have hb2 : s.blogs.find? (fun x => x.id == id) = some b := hb
  have hid := List.find?_some hb2
  unfold putBlog
  rw [hgate, hb]
  simp only [hown, ne_eq, not_true_eq_false, Bool.false_eq_true, if_false]
  by_cases hcond : (patchStr b.title t).length < 3 ∨ patchStr b.googleDriveLink l = ""
  · rw [if_pos hcond]
    refine ⟨fun _ => ?_, fun _ => ?_, fun _ => ?_, fun im him => ⟨b, hb, Or.inl rfl⟩⟩
      <;> simp [hb]
  · rw [if_neg hcond]
    cases file with
    | none =>
        simp only []
        have hfound := findBlog_saveBlog s id b
          { id := b.id, title := patchStr b.title t,
            googleDriveLink := patchStr b.googleDriveLink l, image := b.image,
            author := uid, createdAt := b.createdAt } hb hid
        refine ⟨fun htt => ?_, fun hll => ?_, fun _ => ?_, fun im him => ?_⟩
        · rw [hfound]
          rcases htt with rfl | rfl <;> simp [patchStr]
        · rw [hfound]
          rcases hll with rfl | rfl <;> simp [patchStr]
        · rw [hfound]
          rfl
        · exact ⟨_, hfound, Or.inl rfl⟩
    | some f =>
        simp only []
        have hfound := findBlog_saveBlog s id b
          { id := b.id, title := patchStr b.title t,
            googleDriveLink := patchStr b.googleDriveLink l,
            image := some { data := f.data, contentType := f.mimetype,
                            filename := f.originalname },
            author := uid, createdAt := b.createdAt } hb hid
        refine ⟨fun htt => ?_, fun hll => ?_, fun hfl => ?_, fun im him => ?_⟩
        · rw [hfound]
          rcases htt with rfl | rfl <;> simp [patchStr]
        · rw [hfound]
          rcases hll with rfl | rfl <;> simp [patchStr]
        · exact absurd hfl (by simp)
        · exact ⟨_, hfound, Or.inr ⟨f, rfl, rfl⟩⟩

/-- Witness for C10: an authorized empty patch of the sample blog keeps
title, link and image exactly. -/
theorem put_frame_witness :
    (findBlog (putBlog sampleDB "oid0" "b1" none none none).2 "b1").map
      Blog.title = some sampleBlog.title ∧
    (findBlog (putBlog sampleDB "oid0" "b1" none none none).2 "b1").map
      Blog.image = some sampleBlog.image := by
  have h := put_frame sampleDB "oid0" "b1" sampleBlog none none none
    (by decide) (by decide) (by decide)
  exact ⟨h.1 (Or.inl rfl), h.2.2.1 rfl⟩

end AshuBlogs
